import Mathlib

/-!
Verification development for the submit-addon client (src/src/index.ts).

The client uploads an add-on package, polls the upload's detail record
until validation finishes, submits metadata, polls the add-on or version
detail record until the relevant file is approved, downloads the signed
package and saves it to disk.  The two pollers are modelled as explicit
state machines driven by lists of events (poll completions and abort-timer
firings); the promise they construct is modelled by a write-once `settled`
field.  Pure helpers (response classification, body construction, file
saving) are modelled as Lean functions translated directly from the
source.
-/

namespace SubmitAddon

/-- A parsed JSON value, as needed for the metadata bodies built by
`doNewAddonSubmit` and `doNewVersionSubmit` (src/src/index.ts lines
131-145). -/
inductive Json where
  | str (s : String)
  | num (n : Int)
  | obj (fields : List (String × Json))
  deriving Repr

/-- A JavaScript object as a sequence of key-value bindings; a later
binding for the same key shadows an earlier one, as with object spread. -/
abbrev JObj := List (String × Json)

/-- Property lookup on an object built from bindings: the last binding of
a key wins, matching the semantics of `\x7b a, ...b \x7d` object spread in
JavaScript. -/
def jsonGet : JObj → String → Option Json
  | [], _ => none
  | p :: rest, key =>
    match jsonGet rest key with
    | some v => some v
    | none => if p.1 = key then some p.2 else none

/-- The configuration fields of the `Client` class that the modelled
operations read (constructor, src/src/index.ts lines 36-60). -/
structure Client where
  apiUrlPrefix : String
  validationCheckInterval : Nat
  validationCheckTimeout : Nat
  approvalCheckInterval : Nat
  approvalCheckTimeout : Nat
  downloadDir : String
  deriving Repr, DecidableEq

/-- The parsed body of the upload response handed to `waitForValidation`.
The source only reads `data.uuid`; a missing or empty identifier is the
falsy case of `!data.uuid` (line 79). -/
structure UploadData where
  uuid : String
  deriving Repr, DecidableEq

/-- The parsed body of an upload detail record polled by
`waitForValidation` (fields read at src/src/index.ts lines 101-112). -/
structure UploadDetail where
  processed : Bool
  valid : Bool
  uuid : String
  url : String
  deriving Repr, DecidableEq

/-- The file sub-record read by `waitForApproval` (lines 171-173). -/
structure FileRecord where
  status : String
  url : String
  deriving Repr, DecidableEq

/-- A version sub-record of an add-on detail record. -/
structure VersionRecord where
  file : FileRecord
  deriving Repr, DecidableEq

/-- The parsed body of an add-on detail record, as read by the extractor
and `getDetailUrl` closure of `submitAddon` (lines 252-260). -/
structure AddonDetail where
  slug : String
  current_version : VersionRecord
  latest_unlisted_version : VersionRecord
  deriving Repr, DecidableEq

/-- The parsed body of a version detail record, as read by the extractor
and `getDetailUrl` closure of `submitVersion` (lines 279-285). -/
structure VersionDetail where
  id : Nat
  file : FileRecord
  deriving Repr, DecidableEq

/-- The distinct rejection values produced by the client, named after the
error taxonomy of the specification.  `malformedResponse` wraps the raw
upload body (`new Error(data)`, line 80); `detailFetchError` carries the
status text of the failed upload-detail fetch (line 95); `validationFailed`
carries the service-provided report URL (line 112). -/
inductive AmoError where
  | malformedResponse (data : UploadData)
  | detailFetchError (statusText : String)
  | addonDetailFetchError
  | fetchRejected (message : String)
  | jsonParseError
  | validationFailed (url : String)
  | validationTimeout
  | approvalTimeout
  | serviceUnavailable (statusText : String)
  | badRequest
  | downloadFailed (statusText : String)
  | ioFailure (message : String)
  deriving Repr, DecidableEq

/-- An HTTP response whose JSON body has been parsed to `α`. -/
structure Response (α : Type) where
  status : Nat
  statusText : String
  body : α
  deriving Repr, DecidableEq

/-- `response.ok` of the fetch API: status in the range 200-299. -/
def Response.ok {α : Type} (r : Response α) : Bool :=
  decide (200 ≤ r.status ∧ r.status < 300)

/-- `getJson` (src/src/index.ts lines 191-205): statuses below 100 or at
or above 500 are rejected without reading the body; otherwise a non-ok
status logs the parsed body and rejects with Bad Request, and an ok status
resolves with the parsed body.  The first component is the promise
outcome; the second is the body logged by `this.logger.log(data)`, if
any. -/
def getJson {α : Type} (response : Response α) : Except AmoError α × Option α :=
  if response.status < 100 ∨ 500 ≤ response.status then
    (Except.error (AmoError.serviceUnavailable response.statusText), none)
  else if response.ok = false then
    (Except.error AmoError.badRequest, some response.body)
  else
    (Except.ok response.body, none)

/-- The outcome of one `this.fetch` of a detail record during a poll:
the fetch may reject (network error), or return a response whose `ok`
flag and parsed JSON body (none when `.json()` throws) are recorded. -/
inductive FetchResult (δ : Type) where
  | netError (message : String)
  | resp (ok : Bool) (statusText : String) (body : Option δ)
  deriving Repr, DecidableEq

/-- An event in a poller run: a pending poll attempt completing with a
fetch outcome, or the abort timer firing. -/
inductive PollEvent (δ : Type) where
  | poll (r : FetchResult δ)
  | abortFire
  deriving Repr, DecidableEq

deriving instance DecidableEq for Except

/-- The observable state of one poller invocation: `settled` is the
write-once promise outcome, `abortArmed` whether the abort timer set by
`_setAbortTimeout` is still pending, `pollPending` whether a poll attempt
(the immediate first call or a `_set...CheckTimeout` reschedule) is
outstanding, and `pollCount` how many poll attempts (detail fetches) have
been issued. -/
structure PollerState where
  settled : Option (Except AmoError String)
  abortArmed : Bool
  pollPending : Bool
  pollCount : Nat
  deriving Repr, DecidableEq

/-- Settling a promise: `resolve`/`reject` are no-ops once settled. -/
def settleWith (current : Option (Except AmoError String))
    (outcome : Except AmoError String) : Option (Except AmoError String) :=
  match current with
  | some r => some r
  | none => some outcome

/-- The body of `pollValidationStatus` (src/src/index.ts lines 89-125),
run on the outcome of one upload-detail fetch.  A rejected fetch or a
throwing `.json()` is caught by the catch block, which clears the abort
timer and rejects.  A non-ok response rejects with the fetch-failure error
but, lacking a return statement, continues executing.  A processed, valid
body resolves with its uuid; a processed, invalid body clears the abort
timer and rejects with the report URL; an unprocessed body schedules
another poll. -/
def pollValidationStatus (s : PollerState) (r : FetchResult UploadDetail) : PollerState :=
  match r with
  | FetchResult.netError m =>
      { s with abortArmed := false,
               settled := settleWith s.settled (Except.error (AmoError.fetchRejected m)) }
  | FetchResult.resp ok statusText body =>
      let notOkOutcome := Except.error (AmoError.detailFetchError statusText)
      let s1 := if ok then s else { s with settled := settleWith s.settled notOkOutcome }
      match body with
      | none =>
          { s1 with abortArmed := false,
                    settled := settleWith s1.settled (Except.error AmoError.jsonParseError) }
      | some d =>
          if d.processed then
            if d.valid then
              { s1 with settled := settleWith s1.settled (Except.ok d.uuid) }
            else
              let failedOutcome := Except.error (AmoError.validationFailed d.url)
              { s1 with abortArmed := false,
                        settled := settleWith s1.settled failedOutcome }
          else
            { s1 with pollPending := true }

/-- One event of the validation poller: a poll attempt only runs while
one is pending (it consumes the pending flag and counts one issued
fetch); the abort timer, when still armed, clears any pending poll
reschedule and rejects with the validation timeout (lines 83-87). -/
def validationStep (s : PollerState) (e : PollEvent UploadDetail) : PollerState :=
  match e with
  | PollEvent.poll r =>
      if s.pollPending then
        pollValidationStatus { s with pollPending := false, pollCount := s.pollCount + 1 } r
      else s
  | PollEvent.abortFire =>
      if s.abortArmed then
        { s with abortArmed := false,
                 pollPending := false,
                 settled := settleWith s.settled (Except.error AmoError.validationTimeout) }
      else s

/-- Entry of `waitForValidation` (lines 78-87, 127): a falsy `data.uuid`
rejects immediately with the raw body, before any timer is set or any
poll issued; otherwise the abort timer is armed and the first poll
attempt starts at once. -/
def initValidation (data : UploadData) : PollerState :=
  if data.uuid = "" then
    { settled := some (Except.error (AmoError.malformedResponse data))
      abortArmed := false
      pollPending := false
      pollCount := 0 }
  else
    { settled := none, abortArmed := true, pollPending := true, pollCount := 0 }

/-- A run of `waitForValidation` over a sequence of events. -/
def runValidation (data : UploadData) (es : List (PollEvent UploadDetail)) : PollerState :=
  es.foldl validationStep (initValidation data)

/-- The body of `pollApprovalStatus` (src/src/index.ts lines 163-185).
A non-ok detail response returns after rejecting (no further poll is
scheduled); a file with status public resolves with the file URL; any
other status schedules another poll; a rejected fetch or throwing
`.json()` is caught, clearing the abort timer. -/
def pollApprovalStatus {δ : Type} (extractFileFromData : δ → FileRecord)
    (s : PollerState) (r : FetchResult δ) : PollerState :=
  match r with
  | FetchResult.netError m =>
      { s with abortArmed := false,
               settled := settleWith s.settled (Except.error (AmoError.fetchRejected m)) }
  | FetchResult.resp ok _ body =>
      if ok = false then
        { s with settled := settleWith s.settled (Except.error AmoError.addonDetailFetchError) }
      else
        match body with
        | none =>
            { s with abortArmed := false,
                     settled := settleWith s.settled (Except.error AmoError.jsonParseError) }
        | some d =>
            let file := extractFileFromData d
            if file.status = "public" then
              { s with settled := settleWith s.settled (Except.ok file.url) }
            else
              { s with pollPending := true }

/-- One event of the approval poller (abort timer at lines 157-161). -/
def approvalStep {δ : Type} (extractFileFromData : δ → FileRecord)
    (s : PollerState) (e : PollEvent δ) : PollerState :=
  match e with
  | PollEvent.poll r =>
      if s.pollPending then
        pollApprovalStatus extractFileFromData
          { s with pollPending := false, pollCount := s.pollCount + 1 } r
      else s
  | PollEvent.abortFire =>
      if s.abortArmed then
        { s with abortArmed := false,
                 pollPending := false,
                 settled := settleWith s.settled (Except.error AmoError.approvalTimeout) }
      else s

/-- Entry of `waitForApproval` (lines 156-161, 187): the abort timer is
armed and the first poll attempt starts at once. -/
def initApproval : PollerState :=
  { settled := none, abortArmed := true, pollPending := true, pollCount := 0 }

/-- A run of `waitForApproval` over a sequence of events. -/
def runApproval {δ : Type} (extractFileFromData : δ → FileRecord)
    (es : List (PollEvent δ)) : PollerState :=
  es.foldl (approvalStep extractFileFromData) initApproval

/-- URL of the new-addon submit call (line 132). -/
def doNewAddonSubmitUrl (c : Client) : String :=
  c.apiUrlPrefix ++ "addons/addon/"

/-- Body of the new-addon submit call (line 133): the generated
`version.upload` binding comes first, then the caller metadata is
spread over it. -/
def doNewAddonSubmitBody (metaDataJSON : JObj) (uuid : String) : JObj :=
  [("version", Json.obj [("upload", Json.str uuid)])] ++ metaDataJSON

/-- URL of the new-version submit call (line 142). -/
def doNewVersionSubmitUrl (c : Client) (addonId : String) : String :=
  c.apiUrlPrefix ++ "addons/addon/" ++ addonId ++ "/versions/"

/-- Body of the new-version submit call (line 143): the generated
`upload` binding comes first, then the caller metadata is spread over
it. -/
def doNewVersionSubmitBody (metaDataJSON : JObj) (uuid : String) : JObj :=
  [("upload", Json.str uuid)] ++ metaDataJSON

/-- The channel-aware extractor closure of `submitAddon` (lines
252-256). -/
def extractFileFromDataAddon (channel : String) (data : AddonDetail) : FileRecord :=
  if channel = "listed" then data.current_version.file
  else data.latest_unlisted_version.file

/-- The extractor closure of `submitVersion` (line 279). -/
def extractFileFromDataVersion (data : VersionDetail) : FileRecord :=
  data.file

/-- The `getDetailUrl` closure of `submitAddon` (lines 257-260). -/
def getDetailUrlAddon (c : Client) (data : AddonDetail) : String :=
  c.apiUrlPrefix ++ "addons/addon/" ++ data.slug ++ "/"

/-- The `getDetailUrl` closure of `submitVersion` (lines 280-285). -/
def getDetailUrlVersion (c : Client) (addonId : String) (data : VersionDetail) : String :=
  c.apiUrlPrefix ++ "addons/addon/" ++ addonId ++ "/versions/" ++ toString data.id ++ "/"

/-- The response to the final download fetch: its body is a byte stream
or null. -/
structure DownloadResponse where
  status : Nat
  statusText : String
  body : Option (List Nat)
  deriving Repr, DecidableEq

/-- `response.ok` for the download response. -/
def DownloadResponse.ok (r : DownloadResponse) : Bool :=
  decide (200 ≤ r.status ∧ r.status < 300)

/-- A completed write of bytes to a destination path. -/
structure FileWrite where
  dest : String
  bytes : List Nat
  deriving Repr, DecidableEq

/-- `saveFile` (src/src/index.ts lines 207-217): a non-ok response or a
null body rejects with the download-failed error; otherwise the body is
piped to `downloadDir/the.xpi`.  The `io` argument is the outcome of the
underlying stream pipeline, whose error is propagated unchanged. -/
def saveFile (c : Client) (response : DownloadResponse)
    (io : Except String Unit) : Except AmoError FileWrite :=
  if response.ok = false ∨ response.body = none then
    Except.error (AmoError.downloadFailed response.statusText)
  else
    match io with
    | Except.error e => Except.error (AmoError.ioFailure e)
    | Except.ok _ => Except.ok ⟨c.downloadDir ++ "/the.xpi", response.body.getD []⟩

/-- A filesystem as a map from paths to file contents. -/
def applyWrite (fs : String → Option (List Nat)) (w : FileWrite) :
    String → Option (List Nat) :=
  fun p => if p = w.dest then some w.bytes else fs p

/-- `Promise.then` chaining over a promise that may still be pending
(`none`), rejected, or fulfilled: a rejection skips every later
fulfillment handler. -/
def pthen {α β : Type} (x : Option (Except AmoError α))
    (f : α → Option (Except AmoError β)) : Option (Except AmoError β) :=
  match x with
  | none => none
  | some (Except.error e) => some (Except.error e)
  | some (Except.ok a) => f a

/-- The environment a workflow run interacts with: the responses the
service gives to the upload and submit requests (as functions of the
request actually made), the event sequences driving the two pollers (the
approval events as a function of the detail URL polled), the response to
the final download fetch (as a function of the file URL fetched), and
the outcome of the stream write. -/
structure SubmitEnv (δ : Type) where
  uploadResponse : String → String → Response UploadData
  validationEvents : List (PollEvent UploadDetail)
  submitResponse : String → JObj → Response δ
  approvalEvents : String → List (PollEvent δ)
  downloadResponse : String → DownloadResponse
  writeResult : Except String Unit

/-- `submitAddon` (src/src/index.ts lines 247-271): the then-chain
upload, getJson, waitForValidation, doNewAddonSubmit, getJson,
getDetailUrl, waitForApproval, fetch, saveFile. -/
def submitAddonRun (c : Client) (xpi channel : String) (metaDataJSON : JObj)
    (env : SubmitEnv AddonDetail) : Option (Except AmoError FileWrite) :=
  pthen (some (getJson (env.uploadResponse xpi channel)).1) fun data =>
  pthen (runValidation data env.validationEvents).settled fun uuid =>
  pthen (some (getJson (env.submitResponse (doNewAddonSubmitUrl c)
      (doNewAddonSubmitBody metaDataJSON uuid))).1) fun detail =>
  pthen (some (Except.ok (getDetailUrlAddon c detail))) fun detailUrl =>
  pthen (runApproval (extractFileFromDataAddon channel)
      (env.approvalEvents detailUrl)).settled fun fileUrl =>
  some (saveFile c (env.downloadResponse fileUrl) env.writeResult)

/-- `submitVersion` (src/src/index.ts lines 273-296): the then-chain
upload, getJson, waitForValidation, doNewVersionSubmit, getJson,
getDetailUrl, waitForApproval, fetch, saveFile. -/
def submitVersionRun (c : Client) (xpi channel addonId : String) (metaDataJSON : JObj)
    (env : SubmitEnv VersionDetail) : Option (Except AmoError FileWrite) :=
  pthen (some (getJson (env.uploadResponse xpi channel)).1) fun data =>
  pthen (runValidation data env.validationEvents).settled fun uuid =>
  pthen (some (getJson (env.submitResponse (doNewVersionSubmitUrl c addonId)
      (doNewVersionSubmitBody metaDataJSON uuid))).1) fun detail =>
  pthen (some (Except.ok (getDetailUrlVersion c addonId detail))) fun detailUrl =>
  pthen (runApproval extractFileFromDataVersion
      (env.approvalEvents detailUrl)).settled fun fileUrl =>
  some (saveFile c (env.downloadResponse fileUrl) env.writeResult)

/-! ## Basic lemmas about promises and poller runs -/

theorem pthen_some_ok {α β : Type} (a : α) (f : α → Option (Except AmoError β)) :
    pthen (some (Except.ok a)) f = f a := rfl

theorem pthen_some_error {α β : Type} (e : AmoError) (f : α → Option (Except AmoError β)) :
    pthen (some (Except.error e)) f = some (Except.error e) := rfl

theorem settleWith_already (r : Except AmoError String) (v : Except AmoError String) :
    settleWith (some r) v = some r := rfl

/-- Once the validation promise has settled, no later event changes it. -/
theorem validationStep_keeps_settled (s : PollerState) (e : PollEvent UploadDetail)
    (r : Except AmoError String) (h : s.settled = some r) :
    (validationStep s e).settled = some r := by
  cases e with
  | abortFire =>
    by_cases ha : s.abortArmed <;> simp [validationStep, ha, settleWith, h]
  | poll pr =>
    by_cases hp : s.pollPending
    · cases pr with
      | netError m => simp [validationStep, hp, pollValidationStatus, settleWith, h]
      | resp ok st body =>
        cases body with
        | none =>
          by_cases hok : ok <;>
            simp [validationStep, hp, pollValidationStatus, settleWith, h, hok]
        | some d =>
          by_cases hok : ok <;> by_cases hpr : d.processed = true <;>
            by_cases hv : d.valid = true <;>
              simp [validationStep, hp, pollValidationStatus, settleWith, h, hok, hpr, hv]
    · simp [validationStep, hp, h]

theorem validationRun_keeps_settled (es : List (PollEvent UploadDetail))
    (s : PollerState) (r : Except AmoError String) (h : s.settled = some r) :
    (List.foldl validationStep s es).settled = some r := by
  induction es generalizing s with
  | nil => exact h
  | cons e es ih => exact ih _ (validationStep_keeps_settled s e r h)

/-- Once the approval promise has settled, no later event changes it. -/
theorem approvalStep_keeps_settled {δ : Type} (extract : δ → FileRecord)
    (s : PollerState) (e : PollEvent δ)
    (r : Except AmoError String) (h : s.settled = some r) :
    (approvalStep extract s e).settled = some r := by
  cases e with
  | abortFire =>
    by_cases ha : s.abortArmed <;> simp [approvalStep, ha, settleWith, h]
  | poll pr =>
    by_cases hp : s.pollPending
    · cases pr with
      | netError m => simp [approvalStep, hp, pollApprovalStatus, settleWith, h]
      | resp ok st body =>
        cases body with
        | none =>
          by_cases hok : ok <;>
            simp [approvalStep, hp, pollApprovalStatus, settleWith, h, hok]
        | some d =>
          by_cases hok : ok <;> by_cases hst : (extract d).status = "public" <;>
            simp [approvalStep, hp, pollApprovalStatus, settleWith, h, hok, hst]
    · simp [approvalStep, hp, h]

theorem approvalRun_keeps_settled {δ : Type} (extract : δ → FileRecord)
    (es : List (PollEvent δ)) (s : PollerState)
    (r : Except AmoError String) (h : s.settled = some r) :
    (List.foldl (approvalStep extract) s es).settled = some r := by
  induction es generalizing s with
  | nil => exact h
  | cons e es ih => exact ih _ (approvalStep_keeps_settled extract s e r h)

/-- With the abort timer disarmed and no poll pending, every event is a
no-op. -/
theorem validationStep_dead (s : PollerState) (e : PollEvent UploadDetail)
    (ha : s.abortArmed = false) (hp : s.pollPending = false) :
    validationStep s e = s := by
  cases e <;> simp [validationStep, ha, hp]

theorem validationRun_dead (es : List (PollEvent UploadDetail)) (s : PollerState)
    (ha : s.abortArmed = false) (hp : s.pollPending = false) :
    List.foldl validationStep s es = s := by
  induction es with
  | nil => rfl
  | cons e es ih => rw [List.foldl_cons, validationStep_dead s e ha hp]; exact ih

/-- An event of a run in which validation is still in progress: the poll
fetch succeeded and its body has `processed` still false. -/
def stillProcessingEvent : PollEvent UploadDetail → Bool
  | PollEvent.poll (FetchResult.resp ok _ (some d)) => ok && !d.processed
  | _ => false

/-- While every poll reports an unprocessed upload, the poller stays
unsettled with the abort timer armed and a reschedule pending, counting
one issued fetch per event. -/
theorem run_stillProcessing (es : List (PollEvent UploadDetail)) (n : Nat)
    (h : ∀ e ∈ es, stillProcessingEvent e = true) :
    List.foldl validationStep ⟨none, true, true, n⟩ es =
      ⟨none, true, true, n + es.length⟩ := by
  induction es generalizing n with
  | nil => simp
  | cons e es ih =>
    have he : stillProcessingEvent e = true := h e (List.mem_cons_self e es)
    have hes : ∀ e₂ ∈ es, stillProcessingEvent e₂ = true :=
      fun e₂ hm => h e₂ (List.mem_cons_of_mem e hm)
    cases e with
    | abortFire => simp [stillProcessingEvent] at he
    | poll pr =>
      cases pr with
      | netError m => simp [stillProcessingEvent] at he
      | resp ok st body =>
        cases body with
        | none => simp [stillProcessingEvent] at he
        | some d =>
          simp only [stillProcessingEvent, Bool.and_eq_true, Bool.not_eq_eq_eq_not,
            Bool.not_true] at he
          obtain ⟨hok, hpr⟩ := he
          have hstep : validationStep ⟨none, true, true, n⟩
              (PollEvent.poll (FetchResult.resp ok st (some d))) =
              ⟨none, true, true, n + 1⟩ := by
            simp [validationStep, pollValidationStatus, hok, hpr]
          rw [List.foldl_cons, hstep, ih (n + 1) hes]
          simp
          omega

/-! ## Claims -/

/-- C3: for every upload response body lacking a non-empty upload
identifier, `waitForValidation` fails immediately with the malformed
response error wrapping the raw body, and over any subsequent event
sequence no poll request is issued (`pollCount` stays 0) and no abort
timeout is ever armed. -/
theorem malformed_upload_no_poll_no_timer (data : UploadData)
    (es : List (PollEvent UploadDetail)) (h : data.uuid = "") :
    runValidation data es =
      ⟨some (Except.error (AmoError.malformedResponse data)), false, false, 0⟩ := by
  unfold runValidation
  have hinit : initValidation data =
      ⟨some (Except.error (AmoError.malformedResponse data)), false, false, 0⟩ := by
    unfold initValidation
    rw [if_pos h]
  rw [hinit, validationRun_dead es _ rfl rfl]

theorem malformed_upload_no_poll_no_timer_witness :
    runValidation ⟨""⟩
      [PollEvent.poll (FetchResult.resp true "OK" (some ⟨true, true, "u", ""⟩)),
       PollEvent.abortFire] =
      ⟨some (Except.error (AmoError.malformedResponse ⟨""⟩)), false, false, 0⟩ :=
  malformed_upload_no_poll_no_timer ⟨""⟩ _ rfl

/-- C4: an ok poll response whose body has `processed` true and `valid`
false makes the validation poller clear the abort timeout and reject with
the validation-failed error carrying the service-provided report URL. -/
theorem validation_failed_clears_timer (s : PollerState) (st : String) (d : UploadDetail)
    (hp : s.pollPending = true) (hs : s.settled = none)
    (h1 : d.processed = true) (h2 : d.valid = false) :
    validationStep s (PollEvent.poll (FetchResult.resp true st (some d))) =
      ⟨some (Except.error (AmoError.validationFailed d.url)), false, false,
        s.pollCount + 1⟩ := by
  simp [validationStep, hp, pollValidationStatus, h1, h2, hs, settleWith]

theorem validation_failed_clears_timer_witness :
    validationStep ⟨none, true, true, 0⟩
      (PollEvent.poll (FetchResult.resp true "OK"
        (some ⟨true, false, "u", "http://report"⟩))) =
      ⟨some (Except.error (AmoError.validationFailed "http://report")),
        false, false, 1⟩ :=
  validation_failed_clears_timer ⟨none, true, true, 0⟩ "OK"
    ⟨true, false, "u", "http://report"⟩ rfl rfl rfl rfl

/-- C5: when every poll before the timeout reports an unprocessed upload
and the abort timer then fires, the poller rejects with the validation
timeout, cancels the pending scheduled poll, and issues no poll request
afterwards: whatever events follow, the state is unchanged and the count
of issued polls stays at the number of pre-timeout polls. -/
theorem validation_timeout_cancels_poll (data : UploadData)
    (es tail : List (PollEvent UploadDetail)) (hd : data.uuid ≠ "")
    (h : ∀ e ∈ es, stillProcessingEvent e = true) :
    runValidation data (es ++ PollEvent.abortFire :: tail) =
      ⟨some (Except.error AmoError.validationTimeout), false, false, es.length⟩ := by
  unfold runValidation
  have hinit : initValidation data = ⟨none, true, true, 0⟩ := by
    unfold initValidation
    rw [if_neg hd]
  rw [List.foldl_append, hinit, run_stillProcessing es 0 h, List.foldl_cons]
  have habort : validationStep ⟨none, true, true, 0 + es.length⟩ PollEvent.abortFire =
      ⟨some (Except.error AmoError.validationTimeout), false, false, 0 + es.length⟩ := by
    simp [validationStep, settleWith]
  rw [habort, validationRun_dead tail _ rfl rfl]
  simp

theorem validation_timeout_cancels_poll_witness :
    runValidation ⟨"abc"⟩
      [PollEvent.poll (FetchResult.resp true "OK" (some ⟨false, false, "", ""⟩)),
       PollEvent.abortFire,
       PollEvent.poll (FetchResult.resp true "OK" (some ⟨true, true, "u", ""⟩))] =
      ⟨some (Except.error AmoError.validationTimeout), false, false, 1⟩ :=
  validation_timeout_cancels_poll ⟨"abc"⟩
    [PollEvent.poll (FetchResult.resp true "OK" (some ⟨false, false, "", ""⟩))]
    [PollEvent.poll (FetchResult.resp true "OK" (some ⟨true, true, "u", ""⟩))]
    (by decide) (by decide)

/-- C1 counterexample: the claim says a successful resolution cancels the
abort timer so that no timeout timer fires afterward.  At this concrete
input the validation poller resolves with the uuid but its abort timer is
still armed, and the abort timer then actually fires (the abort event is
enabled and changes the state); the approval poller likewise resolves
with the file URL while leaving its abort timer armed. -/
theorem resolve_keeps_abort_timer_cex :
    (let s2 := validationStep (initValidation ⟨"abc"⟩)
        (PollEvent.poll (FetchResult.resp true "OK" (some ⟨true, true, "abc", ""⟩)))
     s2.settled = some (Except.ok "abc") ∧ s2.abortArmed = true ∧
       validationStep s2 PollEvent.abortFire ≠ s2) ∧
    (let t2 := approvalStep extractFileFromDataVersion initApproval
        (PollEvent.poll (FetchResult.resp true "OK" (some ⟨1, ⟨"public", "http://f"⟩⟩)))
     t2.settled = some (Except.ok "http://f") ∧ t2.abortArmed = true) := by
  decide

/-- C1 (amended): for every sequence of poll responses in which the
poller resolves successfully, the poller resolves with that response's
identifier (validation) or the file's url (approval), but does not cancel
its abort timer: the timer stays exactly as armed as before, and although
it can still fire afterwards, no later event changes the settled
outcome. -/
theorem resolve_does_not_cancel_abort_timer {δ : Type} (extract : δ → FileRecord)
    (s t : PollerState) (st st2 : String) (d : UploadDetail) (b : δ)
    (es : List (PollEvent UploadDetail)) (es2 : List (PollEvent δ))
    (hs : s.settled = none) (hp : s.pollPending = true)
    (h1 : d.processed = true) (h2 : d.valid = true)
    (ht : t.settled = none) (hq : t.pollPending = true)
    (h3 : (extract b).status = "public") :
    ((validationStep s (PollEvent.poll (FetchResult.resp true st (some d)))).settled
        = some (Except.ok d.uuid) ∧
      (validationStep s (PollEvent.poll (FetchResult.resp true st (some d)))).abortArmed
        = s.abortArmed ∧
      (List.foldl validationStep
        (validationStep s (PollEvent.poll (FetchResult.resp true st (some d)))) es).settled
        = some (Except.ok d.uuid)) ∧
    ((approvalStep extract t (PollEvent.poll (FetchResult.resp true st2 (some b)))).settled
        = some (Except.ok (extract b).url) ∧
      (approvalStep extract t (PollEvent.poll (FetchResult.resp true st2 (some b)))).abortArmed
        = t.abortArmed ∧
      (List.foldl (approvalStep extract)
        (approvalStep extract t (PollEvent.poll (FetchResult.resp true st2 (some b)))) es2).settled
        = some (Except.ok (extract b).url)) := by
  have hv : (validationStep s (PollEvent.poll (FetchResult.resp true st (some d)))).settled
      = some (Except.ok d.uuid) := by
    simp [validationStep, hp, pollValidationStatus, h1, h2, hs, settleWith]
  have ha : (approvalStep extract t (PollEvent.poll (FetchResult.resp true st2 (some b)))).settled
      = some (Except.ok (extract b).url) := by
    simp [approvalStep, hq, pollApprovalStatus, h3, ht, settleWith]
  refine ⟨⟨hv, ?_, validationRun_keeps_settled es _ _ hv⟩,
    ⟨ha, ?_, approvalRun_keeps_settled extract es2 _ _ ha⟩⟩
  · simp [validationStep, hp, pollValidationStatus, h1, h2, hs, settleWith]
  · simp [approvalStep, hq, pollApprovalStatus, h3, ht, settleWith]

theorem resolve_does_not_cancel_abort_timer_witness :
    ((validationStep ⟨none, true, true, 0⟩
        (PollEvent.poll (FetchResult.resp true "OK" (some ⟨true, true, "abc", ""⟩)))).settled
        = some (Except.ok "abc") ∧
      (validationStep ⟨none, true, true, 0⟩
        (PollEvent.poll (FetchResult.resp true "OK" (some ⟨true, true, "abc", ""⟩)))).abortArmed
        = true ∧
      (List.foldl validationStep
        (validationStep ⟨none, true, true, 0⟩
          (PollEvent.poll (FetchResult.resp true "OK" (some ⟨true, true, "abc", ""⟩))))
        [PollEvent.abortFire]).settled = some (Except.ok "abc")) ∧
    ((approvalStep extractFileFromDataVersion ⟨none, true, true, 0⟩
        (PollEvent.poll (FetchResult.resp true "OK" (some ⟨1, ⟨"public", "http://f"⟩⟩)))).settled
        = some (Except.ok "http://f") ∧
      (approvalStep extractFileFromDataVersion ⟨none, true, true, 0⟩
        (PollEvent.poll (FetchResult.resp true "OK" (some ⟨1, ⟨"public", "http://f"⟩⟩)))).abortArmed
        = true ∧
      (List.foldl (approvalStep extractFileFromDataVersion)
        (approvalStep extractFileFromDataVersion ⟨none, true, true, 0⟩
          (PollEvent.poll (FetchResult.resp true "OK" (some ⟨1, ⟨"public", "http://f"⟩⟩))))
        [PollEvent.abortFire]).settled = some (Except.ok "http://f")) :=
  resolve_does_not_cancel_abort_timer extractFileFromDataVersion
    ⟨none, true, true, 0⟩ ⟨none, true, true, 0⟩ "OK" "OK"
    ⟨true, true, "abc", ""⟩ ⟨1, ⟨"public", "http://f"⟩⟩
    [PollEvent.abortFire] [PollEvent.abortFire]
    rfl rfl rfl rfl rfl rfl rfl

/-- C2: the claim says a non-ok detail fetch makes the poller fail with
the detail-fetch error, cancel its timeout, and schedule no further poll.
What the code does at a concrete non-ok response: the validation poller
rejects with the detail-fetch error but, missing a return statement,
keeps running, leaves the abort timer armed, schedules another poll (its
body parsed with `processed` false), and that poll attempt indeed
executes (the issued-fetch count rises to 2); the approval poller stops
polling after rejecting but also leaves its abort timer armed. -/
theorem detail_fetch_nonok_divergence :
    (let sV := validationStep (initValidation ⟨"abc"⟩)
        (PollEvent.poll (FetchResult.resp false "Not Found" (some ⟨false, false, "", ""⟩)))
     sV.settled = some (Except.error (AmoError.detailFetchError "Not Found")) ∧
       sV.abortArmed = true ∧ sV.pollPending = true ∧
       (validationStep sV
         (PollEvent.poll (FetchResult.resp true "OK" (some ⟨false, false, "", ""⟩)))).pollCount
         = 2) ∧
    (let sA := approvalStep extractFileFromDataVersion initApproval
        (PollEvent.poll (FetchResult.resp false "Not Found" (some ⟨1, ⟨"x", "y"⟩⟩)))
     sA.settled = some (Except.error AmoError.addonDetailFetchError) ∧
       sA.abortArmed = true ∧ sA.pollPending = false) := by
  decide

/-- C6: `getJson` classifies every response: a status below 100 or at or
above 500 is rejected with the service-unavailable error without the body
being read (nothing is logged and the outcome does not involve the body);
a remaining non-ok status rejects with the bad-request error and logs the
parsed body; an ok status resolves with the parsed body. -/
theorem getJson_classification {α : Type} (r : Response α) :
    (r.status < 100 ∨ 500 ≤ r.status →
      getJson r = (Except.error (AmoError.serviceUnavailable r.statusText), none)) ∧
    (100 ≤ r.status → r.status < 500 → r.ok = false →
      getJson r = (Except.error AmoError.badRequest, some r.body)) ∧
    (r.ok = true → getJson r = (Except.ok r.body, none)) := by
  refine ⟨fun h => ?_, fun h1 h2 h3 => ?_, fun h => ?_⟩
  · unfold getJson
    rw [if_pos h]
  · unfold getJson
    rw [if_neg (by omega), if_pos h3]
  · have hrange : 200 ≤ r.status ∧ r.status < 300 := of_decide_eq_true h
    unfold getJson
    rw [if_neg (by omega), if_neg (by simp [h])]

theorem getJson_classification_witness :
    getJson (⟨503, "Service Unavailable", 7⟩ : Response Nat)
      = (Except.error (AmoError.serviceUnavailable "Service Unavailable"), none) ∧
    getJson (⟨404, "Not Found", 7⟩ : Response Nat)
      = (Except.error AmoError.badRequest, some 7) ∧
    getJson (⟨200, "OK", 7⟩ : Response Nat) = (Except.ok 7, none) :=
  ⟨(getJson_classification ⟨503, "Service Unavailable", 7⟩).1 (Or.inr (by decide)),
   (getJson_classification ⟨404, "Not Found", 7⟩).2.1 (by decide) (by decide) (by decide),
   (getJson_classification ⟨200, "OK", 7⟩).2.2 (by decide)⟩

/-- C7: the approval file extractor is a channel-aware projection: the
new-addon extractor returns the file under `current_version` for the
listed channel and under `latest_unlisted_version` for the unlisted
channel, while the new-version extractor returns the version record's
file field directly. -/
theorem fileExtractor_channel_projection (d : AddonDetail) (v : VersionDetail) :
    extractFileFromDataAddon "listed" d = d.current_version.file ∧
    extractFileFromDataAddon "unlisted" d = d.latest_unlisted_version.file ∧
    extractFileFromDataVersion v = v.file := by
  refine ⟨rfl, ?_, rfl⟩
  unfold extractFileFromDataAddon
  rw [if_neg (by decide)]

/-- C9: `saveFile` fails with the download-failed error exactly when the
response is not ok or carries no body stream; otherwise it writes the
body bytes to the fixed filename `the.xpi` in the configured download
directory (a write that overwrites whatever any filesystem previously
held at that path), and an error of the underlying stream pipeline is
propagated as such, not as a download failure. -/
theorem saveFile_spec (c : Client) (r : DownloadResponse) (io : Except String Unit) :
    (saveFile c r io = Except.error (AmoError.downloadFailed r.statusText) ↔
      r.ok = false ∨ r.body = none) ∧
    (∀ bytes, r.ok = true → r.body = some bytes → io = Except.ok () →
      saveFile c r io = Except.ok ⟨c.downloadDir ++ "/the.xpi", bytes⟩ ∧
      ∀ fs, applyWrite fs ⟨c.downloadDir ++ "/the.xpi", bytes⟩
        (c.downloadDir ++ "/the.xpi") = some bytes) ∧
    (∀ bytes e, r.ok = true → r.body = some bytes → io = Except.error e →
      saveFile c r io = Except.error (AmoError.ioFailure e)) := by
  refine ⟨⟨fun h => ?_, fun h => ?_⟩, fun bytes h1 h2 h3 => ⟨?_, fun fs => ?_⟩,
    fun bytes e h1 h2 h3 => ?_⟩
  · by_cases hc : r.ok = false ∨ r.body = none
    · exact hc
    · exfalso
      unfold saveFile at h
      rw [if_neg hc] at h
      cases io <;> simp at h
  · unfold saveFile
    rw [if_pos h]
  · unfold saveFile
    rw [if_neg (by simp [h1, h2]), h3, h2]
    rfl
  · simp [applyWrite]
  · unfold saveFile
    rw [if_neg (by simp [h1, h2]), h3]

theorem saveFile_spec_witness :
    saveFile ⟨"https://amo/", 1000, 300000, 1000, 900000, "/dl"⟩ ⟨404, "Not Found", none⟩
        (Except.ok ()) = Except.error (AmoError.downloadFailed "Not Found") ∧
    saveFile ⟨"https://amo/", 1000, 300000, 1000, 900000, "/dl"⟩ ⟨200, "OK", some [1, 2]⟩
        (Except.ok ()) = Except.ok ⟨"/dl/the.xpi", [1, 2]⟩ ∧
    saveFile ⟨"https://amo/", 1000, 300000, 1000, 900000, "/dl"⟩ ⟨200, "OK", some [1, 2]⟩
        (Except.error "disk full") = Except.error (AmoError.ioFailure "disk full") :=
  ⟨(saveFile_spec _ ⟨404, "Not Found", none⟩ (Except.ok ())).1.mpr (Or.inr rfl),
   ((saveFile_spec _ ⟨200, "OK", some [1, 2]⟩ (Except.ok ())).2.1 [1, 2] (by decide) rfl rfl).1,
   (saveFile_spec _ ⟨200, "OK", some [1, 2]⟩ (Except.error "disk full")).2.2
     [1, 2] "disk full" (by decide) rfl rfl⟩

/-- C10: because the caller metadata is spread after the generated upload
binding, a metadata key `version` (new-addon submit) or `upload`
(new-version submit) replaces the generated binding of the validated
upload identifier in the submitted body: the submitted value for that key
is the metadata value, independently of which uuid validation produced. -/
theorem metadata_spread_overrides_upload_binding (meta : JObj) (uuid uuid2 : String)
    (v : Json) :
    (jsonGet meta "version" = some v →
      jsonGet (doNewAddonSubmitBody meta uuid) "version" = some v ∧
      jsonGet (doNewAddonSubmitBody meta uuid) "version"
        = jsonGet (doNewAddonSubmitBody meta uuid2) "version") ∧
    (jsonGet meta "upload" = some v →
      jsonGet (doNewVersionSubmitBody meta uuid) "upload" = some v ∧
      jsonGet (doNewVersionSubmitBody meta uuid) "upload"
        = jsonGet (doNewVersionSubmitBody meta uuid2) "upload") := by
  constructor
  · intro h
    constructor <;> simp [doNewAddonSubmitBody, jsonGet, h]
  · intro h
    constructor <;> simp [doNewVersionSubmitBody, jsonGet, h]

theorem metadata_spread_overrides_upload_binding_witness :
    jsonGet [("version", Json.str "1.2.3")] "version" = some (Json.str "1.2.3") ∧
    jsonGet (doNewAddonSubmitBody [("version", Json.str "1.2.3")] "uuid-1") "version"
      = some (Json.str "1.2.3") ∧
    jsonGet [("upload", Json.str "other-upload")] "upload" = some (Json.str "other-upload") ∧
    jsonGet (doNewVersionSubmitBody [("upload", Json.str "other-upload")] "uuid-1") "upload"
      = some (Json.str "other-upload") :=
  ⟨rfl,
   ((metadata_spread_overrides_upload_binding [("version", Json.str "1.2.3")]
      "uuid-1" "uuid-2" (Json.str "1.2.3")).1 rfl).1,
   rfl,
   ((metadata_spread_overrides_upload_binding [("upload", Json.str "other-upload")]
      "uuid-1" "uuid-2" (Json.str "other-upload")).2 rfl).1⟩

/-- C8: each workflow is the strict linear then-pipeline of its stages,
each stage's output feeding the next.  When every stage succeeds, the
new-addon run performs upload, JSON interpretation, validation wait,
new-addon submit carrying the validated upload id, JSON interpretation,
detail-URL construction from the returned slug, approval wait at that
URL, download of the approved file URL, and save; the new-version run is
the same except the submit call goes to the addonId URL and the detail
URL is built from addonId and the returned version id.  A failure of any
stage makes the run end with exactly that error, whatever the later
environment holds. -/
theorem submit_pipeline_sequencing (c : Client) (xpi channel addonId : String)
    (metaDataJSON : JObj) (envA : SubmitEnv AddonDetail) (envV : SubmitEnv VersionDetail) :
    (∀ u uuid detail fileUrl,
      (getJson (envA.uploadResponse xpi channel)).1 = Except.ok u →
      (runValidation u envA.validationEvents).settled = some (Except.ok uuid) →
      (getJson (envA.submitResponse (doNewAddonSubmitUrl c)
        (doNewAddonSubmitBody metaDataJSON uuid))).1 = Except.ok detail →
      (runApproval (extractFileFromDataAddon channel)
        (envA.approvalEvents (getDetailUrlAddon c detail))).settled
        = some (Except.ok fileUrl) →
      submitAddonRun c xpi channel metaDataJSON envA
        = some (saveFile c (envA.downloadResponse fileUrl) envA.writeResult)) ∧
    (∀ e, (getJson (envA.uploadResponse xpi channel)).1 = Except.error e →
      submitAddonRun c xpi channel metaDataJSON envA = some (Except.error e)) ∧
    (∀ u e, (getJson (envA.uploadResponse xpi channel)).1 = Except.ok u →
      (runValidation u envA.validationEvents).settled = some (Except.error e) →
      submitAddonRun c xpi channel metaDataJSON envA = some (Except.error e)) ∧
    (∀ u uuid e, (getJson (envA.uploadResponse xpi channel)).1 = Except.ok u →
      (runValidation u envA.validationEvents).settled = some (Except.ok uuid) →
      (getJson (envA.submitResponse (doNewAddonSubmitUrl c)
        (doNewAddonSubmitBody metaDataJSON uuid))).1 = Except.error e →
      submitAddonRun c xpi channel metaDataJSON envA = some (Except.error e)) ∧
    (∀ u uuid detail e, (getJson (envA.uploadResponse xpi channel)).1 = Except.ok u →
      (runValidation u envA.validationEvents).settled = some (Except.ok uuid) →
      (getJson (envA.submitResponse (doNewAddonSubmitUrl c)
        (doNewAddonSubmitBody metaDataJSON uuid))).1 = Except.ok detail →
      (runApproval (extractFileFromDataAddon channel)
        (envA.approvalEvents (getDetailUrlAddon c detail))).settled
        = some (Except.error e) →
      submitAddonRun c xpi channel metaDataJSON envA = some (Except.error e)) ∧
    (∀ u uuid detail fileUrl,
      (getJson (envV.uploadResponse xpi channel)).1 = Except.ok u →
      (runValidation u envV.validationEvents).settled = some (Except.ok uuid) →
      (getJson (envV.submitResponse (doNewVersionSubmitUrl c addonId)
        (doNewVersionSubmitBody metaDataJSON uuid))).1 = Except.ok detail →
      (runApproval extractFileFromDataVersion
        (envV.approvalEvents (getDetailUrlVersion c addonId detail))).settled
        = some (Except.ok fileUrl) →
      submitVersionRun c xpi channel addonId metaDataJSON envV
        = some (saveFile c (envV.downloadResponse fileUrl) envV.writeResult)) ∧
    (∀ e, (getJson (envV.uploadResponse xpi channel)).1 = Except.error e →
      submitVersionRun c xpi channel addonId metaDataJSON envV = some (Except.error e)) ∧
    (∀ u e, (getJson (envV.uploadResponse xpi channel)).1 = Except.ok u →
      (runValidation u envV.validationEvents).settled = some (Except.error e) →
      submitVersionRun c xpi channel addonId metaDataJSON envV = some (Except.error e)) ∧
    (∀ u uuid e, (getJson (envV.uploadResponse xpi channel)).1 = Except.ok u →
      (runValidation u envV.validationEvents).settled = some (Except.ok uuid) →
      (getJson (envV.submitResponse (doNewVersionSubmitUrl c addonId)
        (doNewVersionSubmitBody metaDataJSON uuid))).1 = Except.error e →
      submitVersionRun c xpi channel addonId metaDataJSON envV = some (Except.error e)) ∧
    (∀ u uuid detail e, (getJson (envV.uploadResponse xpi channel)).1 = Except.ok u →
      (runValidation u envV.validationEvents).settled = some (Except.ok uuid) →
      (getJson (envV.submitResponse (doNewVersionSubmitUrl c addonId)
        (doNewVersionSubmitBody metaDataJSON uuid))).1 = Except.ok detail →
      (runApproval extractFileFromDataVersion
        (envV.approvalEvents (getDetailUrlVersion c addonId detail))).settled
        = some (Except.error e) →
      submitVersionRun c xpi channel addonId metaDataJSON envV = some (Except.error e)) := by
  refine ⟨fun u uuid detail fileUrl h1 h2 h3 h4 => ?_, fun e h1 => ?_,
    fun u e h1 h2 => ?_, fun u uuid e h1 h2 h3 => ?_,
    fun u uuid detail e h1 h2 h3 h4 => ?_,
    fun u uuid detail fileUrl h1 h2 h3 h4 => ?_, fun e h1 => ?_,
    fun u e h1 h2 => ?_, fun u uuid e h1 h2 h3 => ?_,
    fun u uuid detail e h1 h2 h3 h4 => ?_⟩ <;>
  simp_all only [submitAddonRun, submitVersionRun, pthen_some_ok, pthen_some_error]

/-- A concrete client configuration used by the pipeline witness. -/
def wClient : Client := ⟨"https://amo/", 1000, 300000, 1000, 900000, "/dl"⟩

/-- A concrete add-on detail record whose listed-channel file is public. -/
def wAddonDetail : AddonDetail :=
  ⟨"slug1", ⟨⟨"public", "http://fileA"⟩⟩, ⟨⟨"queued", "http://other"⟩⟩⟩

/-- A concrete version detail record whose file is public. -/
def wVersionDetail : VersionDetail := ⟨7, ⟨"public", "http://fileV"⟩⟩

/-- An all-success environment for the new-addon workflow. -/
def wEnvA : SubmitEnv AddonDetail :=
  { uploadResponse := fun _ _ => ⟨200, "OK", ⟨"u-1"⟩⟩
    validationEvents :=
      [PollEvent.poll (FetchResult.resp true "OK" (some ⟨true, true, "u-1", ""⟩))]
    submitResponse := fun _ _ => ⟨200, "OK", wAddonDetail⟩
    approvalEvents := fun _ => [PollEvent.poll (FetchResult.resp true "OK" (some wAddonDetail))]
    downloadResponse := fun _ => ⟨200, "OK", some [9, 8, 7]⟩
    writeResult := Except.ok () }

/-- The new-addon environment with a failing upload response. -/
def wEnvAUp : SubmitEnv AddonDetail :=
  { wEnvA with uploadResponse := fun _ _ => ⟨503, "Service Unavailable", ⟨"u-1"⟩⟩ }

/-- The new-addon environment with a validation poll whose fetch rejects. -/
def wEnvAVal : SubmitEnv AddonDetail :=
  { wEnvA with validationEvents := [PollEvent.poll (FetchResult.netError "boom")] }

/-- The new-addon environment with a failing submit response. -/
def wEnvASub : SubmitEnv AddonDetail :=
  { wEnvA with submitResponse := fun _ _ => ⟨400, "Bad Request", wAddonDetail⟩ }

/-- The new-addon environment whose approval wait times out at once. -/
def wEnvAApp : SubmitEnv AddonDetail :=
  { wEnvA with approvalEvents := fun _ => [PollEvent.abortFire] }

/-- An all-success environment for the new-version workflow. -/
def wEnvV : SubmitEnv VersionDetail :=
  { uploadResponse := fun _ _ => ⟨200, "OK", ⟨"u-1"⟩⟩
    validationEvents :=
      [PollEvent.poll (FetchResult.resp true "OK" (some ⟨true, true, "u-1", ""⟩))]
    submitResponse := fun _ _ => ⟨200, "OK", wVersionDetail⟩
    approvalEvents := fun _ => [PollEvent.poll (FetchResult.resp true "OK" (some wVersionDetail))]
    downloadResponse := fun _ => ⟨200, "OK", some [4, 5]⟩
    writeResult := Except.ok () }

/-- The new-version environment with a failing upload response. -/
def wEnvVUp : SubmitEnv VersionDetail :=
  { wEnvV with uploadResponse := fun _ _ => ⟨503, "Service Unavailable", ⟨"u-1"⟩⟩ }

/-- The new-version environment with a validation poll whose fetch rejects. -/
def wEnvVVal : SubmitEnv VersionDetail :=
  { wEnvV with validationEvents := [PollEvent.poll (FetchResult.netError "boom")] }

/-- The new-version environment with a failing submit response. -/
def wEnvVSub : SubmitEnv VersionDetail :=
  { wEnvV with submitResponse := fun _ _ => ⟨400, "Bad Request", wVersionDetail⟩ }

/-- The new-version environment whose approval wait times out at once. -/
def wEnvVApp : SubmitEnv VersionDetail :=
  { wEnvV with approvalEvents := fun _ => [PollEvent.abortFire] }

theorem submit_pipeline_sequencing_witness :
    submitAddonRun wClient "a.xpi" "listed" [] wEnvA
      = some (Except.ok ⟨"/dl/the.xpi", [9, 8, 7]⟩) ∧
    submitAddonRun wClient "a.xpi" "listed" [] wEnvAUp
      = some (Except.error (AmoError.serviceUnavailable "Service Unavailable")) ∧
    submitAddonRun wClient "a.xpi" "listed" [] wEnvAVal
      = some (Except.error (AmoError.fetchRejected "boom")) ∧
    submitAddonRun wClient "a.xpi" "listed" [] wEnvASub
      = some (Except.error AmoError.badRequest) ∧
    submitAddonRun wClient "a.xpi" "listed" [] wEnvAApp
      = some (Except.error AmoError.approvalTimeout) ∧
    submitVersionRun wClient "a.xpi" "listed" "addon-1" [] wEnvV
      = some (Except.ok ⟨"/dl/the.xpi", [4, 5]⟩) ∧
    submitVersionRun wClient "a.xpi" "listed" "addon-1" [] wEnvVUp
      = some (Except.error (AmoError.serviceUnavailable "Service Unavailable")) ∧
    submitVersionRun wClient "a.xpi" "listed" "addon-1" [] wEnvVVal
      = some (Except.error (AmoError.fetchRejected "boom")) ∧
    submitVersionRun wClient "a.xpi" "listed" "addon-1" [] wEnvVSub
      = some (Except.error AmoError.badRequest) ∧
    submitVersionRun wClient "a.xpi" "listed" "addon-1" [] wEnvVApp
      = some (Except.error AmoError.approvalTimeout) :=
  ⟨(submit_pipeline_sequencing wClient "a.xpi" "listed" "addon-1" [] wEnvA wEnvV).1
      ⟨"u-1"⟩ "u-1" wAddonDetail "http://fileA" (by decide) (by decide) (by decide) (by decide),
   (submit_pipeline_sequencing wClient "a.xpi" "listed" "addon-1" [] wEnvAUp wEnvV).2.1
      (AmoError.serviceUnavailable "Service Unavailable") (by decide),
   (submit_pipeline_sequencing wClient "a.xpi" "listed" "addon-1" [] wEnvAVal wEnvV).2.2.1
      ⟨"u-1"⟩ (AmoError.fetchRejected "boom") (by decide) (by decide),
   (submit_pipeline_sequencing wClient "a.xpi" "listed" "addon-1" [] wEnvASub wEnvV).2.2.2.1
      ⟨"u-1"⟩ "u-1" AmoError.badRequest (by decide) (by decide) (by decide),
   (submit_pipeline_sequencing wClient "a.xpi" "listed" "addon-1" [] wEnvAApp wEnvV).2.2.2.2.1
      ⟨"u-1"⟩ "u-1" wAddonDetail AmoError.approvalTimeout
      (by decide) (by decide) (by decide) (by decide),
   (submit_pipeline_sequencing wClient "a.xpi" "listed" "addon-1" [] wEnvA wEnvV).2.2.2.2.2.1
      ⟨"u-1"⟩ "u-1" wVersionDetail "http://fileV" (by decide) (by decide) (by decide) (by decide),
   (submit_pipeline_sequencing wClient "a.xpi" "listed" "addon-1" [] wEnvA wEnvVUp).2.2.2.2.2.2.1
      (AmoError.serviceUnavailable "Service Unavailable") (by decide),
   (submit_pipeline_sequencing wClient "a.xpi" "listed" "addon-1" [] wEnvA
        wEnvVVal).2.2.2.2.2.2.2.1
      ⟨"u-1"⟩ (AmoError.fetchRejected "boom") (by decide) (by decide),
   (submit_pipeline_sequencing wClient "a.xpi" "listed" "addon-1" [] wEnvA
        wEnvVSub).2.2.2.2.2.2.2.2.1
      ⟨"u-1"⟩ "u-1" AmoError.badRequest (by decide) (by decide) (by decide),
   (submit_pipeline_sequencing wClient "a.xpi" "listed" "addon-1" [] wEnvA
        wEnvVApp).2.2.2.2.2.2.2.2.2
      ⟨"u-1"⟩ "u-1" wVersionDetail AmoError.approvalTimeout
      (by decide) (by decide) (by decide) (by decide)⟩

end SubmitAddon
